import Mathlib

/-!
Shallow embedding of `src/totp.py`, a TOTP-code CLI that keeps one secret per
service name in the OS keyring (the Credential Store) and an ordered list of
service names in a JSON file (the Service Index).

The embedding models the state the program manipulates — the keyring entries
reachable through `KeyManager` and the in-memory `Services` list — and the
command branches of `main` as pure functions.  External effects (the `oathtool`
subprocess, clipboard, logging, file persistence) are represented only through
the data they receive or return.
-/

namespace Totp

/--
The Credential Store as seen through `KeyManager`: `get_key` calls
`keyring.get_password(service, service)`, which yields the stored string or
`None` when no entry exists.  We model it as a map from service name to an
optional secret.
-/
abbrev Store := String → Option String

/-- `KeyManager.set_key`: `keyring.set_password(service, service, key)` stores
or overwrites the entry for `service`. -/
def Store.set (st : Store) (name val : String) : Store :=
  fun n => if n = name then some val else st n

/-- A keyring with no entries at all. -/
def Store.empty : Store := fun _ => none

/-- `Services.add_service`: `self.services.append(service)` followed by
`save()` — the name is appended at the end of the list. -/
def add_service (l : List String) (s : String) : List String := l ++ [s]

/-- `Services.remove_service`: `self.services.remove(service)` removes the
first occurrence (callers in `main` guard with a membership test first). -/
def remove_service (l : List String) (s : String) : List String := l.erase s

/--
Result of the secret-or-URL processing at the top of the `add` and `update`
branches (`totp.py` lines 146–151 and 166–172):

* `emptyInput` — the entered string is `""`: `logger.error("Secret or URL is
  required")` and `exit(1)`;
* `malformed` — the string starts with `otpauth://` but does not contain
  `secret=`: `secret.split("secret=")[1]` raises an uncaught `IndexError`
  (the interpreter aborts with a traceback and a non-zero status — not a
  handled error path);
* `parsed s` — the effective secret `s` that the branch goes on to store.
-/
inductive SecretInput where
  | emptyInput
  | malformed
  | parsed (secret : String)
deriving Repr, DecidableEq

/-- `str.startswith(p)` on character lists: `p` is an initial segment of the
string. -/
def startsWithChars : List Char → List Char → Bool
  | [], _ => true
  | _ :: _, [] => false
  | p :: ps, c :: cs => p = c && startsWithChars ps cs

/--
Worker for `pySplit` (Python's `str.split(sep)` with a nonempty separator):
scan left to right; at the first position where `sep` is an initial segment,
close the current chunk (`acc`, accumulated reversed) and continue after the
separator.  `fuel` only bounds the recursion; with `fuel ≥ s.length` (as
`pySplit` supplies) the fuel-exhausted branch is never taken, since every step
consumes at least one character.
-/
def pySplitGo (sep : List Char) : Nat → List Char → List Char → List (List Char)
  | _, [], acc => [acc.reverse]
  | 0, cs, acc => [acc.reverse ++ cs]
  | fuel + 1, c :: cs, acc =>
    if startsWithChars sep (c :: cs) then
      acc.reverse :: pySplitGo sep fuel (cs.drop (sep.length - 1)) []
    else
      pySplitGo sep fuel cs (c :: acc)

/--
Python's `str.split(sep)` for a nonempty separator, on character lists: the
leftmost, non-overlapping occurrences of `sep` cut the string into chunks, kept
in order; a string not containing `sep` yields the one-element list `[s]`, and
`"".split(sep) == [""]`.
-/
def pySplit (sep s : List Char) : List (List Char) :=
  pySplitGo sep s.length s []

/--
The secret-or-URL processing at the top of the `add` and `update` branches:

```python
if secret == "": ...error...
elif secret.startswith("otpauth://"):
    secret = secret.split("secret=")[1].split("&")[0]
```

Python's `str.split(sep)` splits at every occurrence of `sep` (`pySplit`), so
element `[1]` is the chunk between the first and the *second* occurrence of
`secret=` (or the end of the string), and `.split("&")[0]` keeps what precedes
the first `&` of that chunk.  When `secret=` does not occur, the split has one
element and `[1]` raises `IndexError`.
-/
def parseSecret (input : String) : SecretInput :=
  if input = "" then .emptyInput
  else if startsWithChars "otpauth://".data input.data then
    match pySplit "secret=".data input.data with
    | _ :: second :: _ => .parsed (String.mk ((pySplit "&".data second).headD []))
    | _ => .malformed
  else .parsed input

/-- Python truthiness of `keyring.get_password`'s result, used by the `add`
branch (`if key:`): `None` and the empty string are falsy, every other string
is truthy. -/
def pyTruthy : Option String → Bool
  | none => false
  | some s => s ≠ ""

/-- The mutable state `main` threads through a single invocation: the keyring
and the `Services` list. -/
structure ProgState where
  store : Store
  index : List String

/--
Outcome of the `add`, `update` and `remove` branches of `main`:

* `errEmptySecret` — `"Secret or URL is required"`, `exit(1)`;
* `crashed` — uncaught `IndexError` from the otpauth parsing (interpreter
  traceback, non-zero exit, no handled message);
* `errExists` — `"Service already exists, use update instead"`, `exit(1)`;
* `errNotFound` — `"Service not found"`, `exit(1)`;
* `success` — the branch ran to completion (exit status 0).
-/
inductive CmdResult where
  | errEmptySecret
  | crashed
  | errExists
  | errNotFound
  | success
deriving Repr, DecidableEq

/-- Process exit status produced by each outcome: 0 only on success.  (For
`crashed` this is the interpreter's own exit status for an uncaught
exception.) -/
def CmdResult.exitCode : CmdResult → Nat
  | .success => 0
  | _ => 1

/-- Whether the outcome is a handled, reported error path (a `logger.error`
message followed by `exit(1)`), as opposed to a success or an uncaught
exception. -/
def CmdResult.isHandledError : CmdResult → Bool
  | .errEmptySecret => true
  | .errExists => true
  | .errNotFound => true
  | _ => false

/--
The `add` branch of `main` (`totp.py` lines 145–163): read and parse the
secret-or-URL, then

```python
key = key_manager.get_key()
if key:
    logger.error("Service already exists, use update instead"); exit(1)
key_manager.set_key(secret)
if args.service not in services.get_services():
    services.add_service(args.service)
```
-/
def addCmd (st : ProgState) (service input : String) : CmdResult × ProgState :=
  match parseSecret input with
  | .emptyInput => (.errEmptySecret, st)
  | .malformed => (.crashed, st)
  | .parsed secret =>
    if pyTruthy (st.store service) then (.errExists, st)
    else
      (.success,
        { store := st.store.set service secret
          index := if service ∈ st.index then st.index
                   else add_service st.index service })

/--
The `update` branch of `main` (`totp.py` lines 165–184): same parsing, then

```python
key = key_manager.get_key()
if key is None:
    logger.error("Service not found"); exit(1)
key_manager.set_key(secret)
if args.service not in services.get_services():
    services.add_service(args.service)
```
-/
def updateCmd (st : ProgState) (service input : String) : CmdResult × ProgState :=
  match parseSecret input with
  | .emptyInput => (.errEmptySecret, st)
  | .malformed => (.crashed, st)
  | .parsed secret =>
    match st.store service with
    | none => (.errNotFound, st)
    | some _ =>
      (.success,
        { store := st.store.set service secret
          index := if service ∈ st.index then st.index
                   else add_service st.index service })

/--
The `remove` branch of `main` (`totp.py` lines 186–196):

```python
key = key_manager.get_key()
if key is None:
    logger.error("Service not found"); exit(1)
key_manager.set_key("")
if args.service in services.get_services():
    services.remove_service(args.service)
```
-/
def removeCmd (st : ProgState) (service : String) : CmdResult × ProgState :=
  match st.store service with
  | none => (.errNotFound, st)
  | some _ =>
    (.success,
      { store := st.store.set service ""
        index := if service ∈ st.index then remove_service st.index service
                 else st.index })

/--
Outcome of the `generate` branch of `main` (`totp.py` lines 128–138):

```python
key = key_manager.get_key()
if key is None:
    print("Key not found"); exit(1)
totp_generator = TOTPGenerator(key)
totp = totp_generator.generate()
```

`keyNotFound` is the `is None` branch; `generated key` records that the branch
went on to hand `key` to `TOTPGenerator` (which shells out to `oathtool`).
Neither branch mutates the keyring or the index.
-/
inductive GenOutcome where
  | keyNotFound
  | generated (key : String)
deriving Repr, DecidableEq

/-- The `generate` branch's decision, as a function of the store. -/
def generateCmd (store : Store) (service : String) : GenOutcome :=
  match store service with
  | none => .keyNotFound
  | some key => .generated key

/-- The five values of the `action` positional argument. -/
inductive Action where
  | generate
  | add
  | update
  | remove
  | list
deriving Repr, DecidableEq

/--
Result of one invocation of `main` in the dispatch model:

* `listed names` — the `list` branch printed `names` (runs before the
  service-name check and touches no state);
* `errNoService` — `args.service is None`: `"Service name is required"`,
  `exit(1)`;
* `genKeyNotFound` / `genOk key` — the two `generate` outcomes;
* `cmd r` — an `add`/`update`/`remove` outcome.
-/
inductive DispatchResult where
  | listed (names : List String)
  | errNoService
  | genKeyNotFound
  | genOk (key : String)
  | cmd (r : CmdResult)
deriving Repr, DecidableEq

/-- Exit status of a dispatch result (`exit(0)` after `list`, `exit(1)` on the
missing-service and key-not-found paths, `CmdResult.exitCode` otherwise). -/
def DispatchResult.exitCode : DispatchResult → Nat
  | .listed _ => 0
  | .errNoService => 1
  | .genKeyNotFound => 1
  | .genOk _ => 0
  | .cmd r => r.exitCode

/--
The command dispatch of `main` (`totp.py` lines 118–196), mirroring the order
of the source: the `list` branch first, then the `args.service is None` check
(the *only* service-name validation — an empty string passes it), then the
per-command branches.  `input` is the string `getpass.getpass` would return in
the `add`/`update` branches; it is ignored elsewhere.
-/
def dispatch (act : Action) (serviceArg : Option String) (input : String)
    (st : ProgState) : DispatchResult × ProgState :=
  match act with
  | .list => (.listed st.index, st)
  | _ =>
    match serviceArg with
    | none => (.errNoService, st)
    | some service =>
      match act with
      | .list => (.listed st.index, st)
      | .generate =>
        match generateCmd st.store service with
        | .keyNotFound => (.genKeyNotFound, st)
        | .generated k => (.genOk k, st)
      | .add =>
        let r := addCmd st service input
        (.cmd r.1, r.2)
      | .update =>
        let r := updateCmd st service input
        (.cmd r.1, r.2)
      | .remove =>
        let r := removeCmd st service
        (.cmd r.1, r.2)

/--
Everything after the first occurrence of `sep` in `s` (all of `s` past the end
of that occurrence); `s` itself if `sep` never occurs.  Fuel-based like
`pySplitGo`, with the same leftmost-match scan.
-/
def afterFirst (sep : List Char) : Nat → List Char → List Char
  | _, [] => []
  | 0, cs => cs
  | fuel + 1, c :: cs =>
    if startsWithChars sep (c :: cs) then cs.drop (sep.length - 1)
    else afterFirst sep fuel cs

/--
Modelled from the spec's wording, for comparison with `parseSecret` (claim C4):
"the substring between `secret=` and the next `&`, or the end of the string if
no `&` follows" — everything after the *first* occurrence of `secret=`, cut at
the first `&`.
-/
def specEffectiveSecret (input : String) : String :=
  String.mk
    ((pySplit "&".data (afterFirst "secret=".data input.data.length input.data)).headD [])

/-- A concrete one-service state used to instantiate the theorems: the service
`github` has the stored secret `KEY` and is listed in the index. -/
def githubState : ProgState := ⟨Store.empty.set "github" "KEY", ["github"]⟩

/-- The concrete state with no keyring entries and an empty index. -/
def emptyState : ProgState := ⟨Store.empty, []⟩

/-! ### Helper lemmas about the split model -/

/-- `pySplitGo` always returns at least one chunk. -/
theorem pySplitGo_ne_nil (sep : List Char) :
    ∀ (fuel : Nat) (s acc : List Char), pySplitGo sep fuel s acc ≠ [] := by
  intro fuel
  induction fuel with
  | zero => intro s acc; cases s <;> simp [pySplitGo]
  | succ n ih =>
    intro s acc
    cases s with
    | nil => simp [pySplitGo]
    | cons c cs =>
      by_cases h : startsWithChars sep (c :: cs) = true <;>
        simp [pySplitGo, h, ih]

/-- If the split produces a single chunk, that chunk is the whole remaining
input (prefixed by the accumulated characters). -/
theorem pySplitGo_eq_singleton (sep : List Char) :
    ∀ (fuel : Nat) (s acc b : List Char),
      pySplitGo sep fuel s acc = [b] → acc.reverse ++ s = b := by
  intro fuel
  induction fuel with
  | zero =>
    intro s acc b h
    cases s with
    | nil => simp [pySplitGo] at h; simp [h]
    | cons c cs => simp [pySplitGo] at h; simpa using h
  | succ n ih =>
    intro s acc b h
    cases s with
    | nil => simp [pySplitGo] at h; simp [h]
    | cons c cs =>
      by_cases hs : startsWithChars sep (c :: cs) = true
      · simp [pySplitGo, hs] at h
        exact absurd h.2 (pySplitGo_ne_nil sep n (cs.drop (sep.length - 1)) [])
      · simp only [pySplitGo, hs, Bool.false_eq_true, if_false] at h
        have := ih cs (c :: acc) b h
        simpa using this

/-- If the split produces exactly two chunks, everything after the first
occurrence of the separator is the second chunk. -/
theorem afterFirst_of_pySplitGo_pair (sep : List Char) :
    ∀ (fuel : Nat) (s acc a b : List Char),
      pySplitGo sep fuel s acc = [a, b] → afterFirst sep fuel s = b := by
  intro fuel
  induction fuel with
  | zero =>
    intro s acc a b h
    cases s with
    | nil => simp [pySplitGo] at h
    | cons c cs => simp [pySplitGo] at h
  | succ n ih =>
    intro s acc a b h
    cases s with
    | nil => simp [pySplitGo] at h
    | cons c cs =>
      by_cases hs : startsWithChars sep (c :: cs) = true
      · simp only [pySplitGo, hs, if_true] at h
        have h2 : pySplitGo sep n (cs.drop (sep.length - 1)) [] = [b] := by
          injection h with hhd htl
        have := pySplitGo_eq_singleton sep n (cs.drop (sep.length - 1)) [] b h2
        simp only [afterFirst, hs, if_true]
        simpa using this
      · simp only [pySplitGo, hs, Bool.false_eq_true, if_false] at h
        simp only [afterFirst, hs, Bool.false_eq_true, if_false]
        exact ih cs (c :: acc) a b h

/-! ### Claim theorems -/

/--
C1: the claim says that for a service whose store entry holds the empty string
(the state a successful `remove` produces), `generate` reports "key not found"
and exits with failure.  The code checks `key is None` only, so the
empty-string entry passes the check and the empty key is handed to the TOTP
generator instead of printing "Key not found" — contradicting the intended
lifecycle (remove is a logical delete, so a removed service must not
generate).  After removing `github`, the store entry is `some ""` and
`generate` takes the `generated` branch, not the `keyNotFound` one.
-/
theorem remove_then_generate_skips_key_not_found :
    (removeCmd githubState "github").1 = CmdResult.success ∧
    (removeCmd githubState "github").2.store "github" = some "" ∧
    generateCmd (removeCmd githubState "github").2.store "github"
        = GenOutcome.generated "" ∧
    GenOutcome.generated "" ≠ GenOutcome.keyNotFound := by
  refine ⟨rfl, rfl, rfl, by decide⟩

/--
C2: when the store already holds a non-empty secret for the service, `add`
(with a well-formed interactive input, which is read and parsed before the
check) rejects with the "already exists, use update" error, exits with status
1, and returns the state unchanged.
-/
theorem add_existing_service_rejected
    (st : ProgState) (service input secret k : String)
    (hparse : parseSecret input = SecretInput.parsed secret)
    (hstore : st.store service = some k) (hk : k ≠ "") :
    addCmd st service input = (CmdResult.errExists, st) ∧
    CmdResult.exitCode CmdResult.errExists = 1 := by
  refine ⟨?_, rfl⟩
  unfold addCmd
  rw [hparse]
  have ht : pyTruthy (st.store service) = true := by
    rw [hstore]; simp [pyTruthy, hk]
  simp [ht]

/-- Witness for C2 at a concrete state: `github` holds `OLDKEY`, the entered
secret is `NEWKEY`. -/
theorem add_existing_service_rejected_witness :
    parseSecret "NEWKEY" = SecretInput.parsed "NEWKEY" ∧
    githubState.store "github" = some "KEY" ∧
    ("KEY" : String) ≠ "" ∧
    (addCmd githubState "github" "NEWKEY" = (CmdResult.errExists, githubState) ∧
      CmdResult.exitCode CmdResult.errExists = 1) :=
  ⟨by decide, by rfl, by decide,
    add_existing_service_rejected githubState "github" "NEWKEY" "NEWKEY" "KEY"
      (by decide) (by rfl) (by decide)⟩

/--
C5: the claim says an `otpauth://` input without a `secret=` parameter is a
defined, reported failure.  In the code `secret.split("secret=")[1]` raises an
uncaught `IndexError` (an interpreter traceback, not a handled error path), in
both the `add` and the `update` branches — the spec's "defined failure" is the
intent and the missing bounds check is a code defect.
-/
theorem otpauth_without_secret_param_crashes :
    parseSecret "otpauth://totp/Example" = SecretInput.malformed ∧
    (addCmd emptyState "github" "otpauth://totp/Example").1 = CmdResult.crashed ∧
    (updateCmd githubState "github" "otpauth://totp/Example").1 = CmdResult.crashed ∧
    CmdResult.isHandledError CmdResult.crashed = false := by
  refine ⟨by decide, rfl, rfl, by decide⟩

/--
C6: for a service whose store entry is present, `remove` succeeds, sets the
store entry to the empty string (the entry stays present — a logical delete),
and removes the first occurrence of the name from the index (a no-op when the
name is not listed).
-/
theorem remove_logical_delete
    (st : ProgState) (service k : String) (hstore : st.store service = some k) :
    (removeCmd st service).1 = CmdResult.success ∧
    (removeCmd st service).2.store service = some "" ∧
    (removeCmd st service).2.index = st.index.erase service := by
  unfold removeCmd
  rw [hstore]
  refine ⟨rfl, ?_, ?_⟩
  · simp [Store.set]
  · by_cases hm : service ∈ st.index
    · simp [hm, remove_service]
    · simp [hm, remove_service, List.erase_of_not_mem hm]

/-- Witness for C6 at the concrete one-service state. -/
theorem remove_logical_delete_witness :
    githubState.store "github" = some "KEY" ∧
    ((removeCmd githubState "github").1 = CmdResult.success ∧
      (removeCmd githubState "github").2.store "github" = some "" ∧
      (removeCmd githubState "github").2.index = githubState.index.erase "github") :=
  ⟨by rfl, remove_logical_delete githubState "github" "KEY" (by rfl)⟩

/--
C3: with a well-formed secret-or-URL input (read and parsed before the check),
`update` on a service whose store entry is absent fails with "service not
found", exits with status 1 and returns the state unchanged; on a service
whose entry is present it succeeds, overwrites the stored secret with the
parsed one and ensures the name is in the index.
-/
theorem update_precondition
    (st : ProgState) (service input secret : String)
    (hparse : parseSecret input = SecretInput.parsed secret) :
    (st.store service = none →
        updateCmd st service input = (CmdResult.errNotFound, st) ∧
        CmdResult.exitCode CmdResult.errNotFound = 1) ∧
    (∀ k, st.store service = some k →
        (updateCmd st service input).1 = CmdResult.success ∧
        (updateCmd st service input).2.store service = some secret ∧
        service ∈ (updateCmd st service input).2.index) := by
  constructor
  · intro habs
    unfold updateCmd
    rw [hparse, habs]
    exact ⟨rfl, rfl⟩
  · intro k hk
    unfold updateCmd
    rw [hparse, hk]
    refine ⟨rfl, ?_, ?_⟩
    · simp [Store.set]
    · by_cases hm : service ∈ st.index
      · simp [hm]
      · simp [hm, add_service]

/-- Witness for C3 at the empty state (the absent branch is dischargeable, the
present branch holds vacuously there). -/
theorem update_precondition_witness :
    parseSecret "NEWKEY" = SecretInput.parsed "NEWKEY" ∧
    ((emptyState.store "github" = none →
        updateCmd emptyState "github" "NEWKEY" = (CmdResult.errNotFound, emptyState) ∧
        CmdResult.exitCode CmdResult.errNotFound = 1) ∧
      (∀ k, emptyState.store "github" = some k →
        (updateCmd emptyState "github" "NEWKEY").1 = CmdResult.success ∧
        (updateCmd emptyState "github" "NEWKEY").2.store "github" = some "NEWKEY" ∧
        "github" ∈ (updateCmd emptyState "github" "NEWKEY").2.index)) :=
  ⟨by decide, update_precondition emptyState "github" "NEWKEY" "NEWKEY" (by decide)⟩

/--
C10: `update` on a service whose store entry holds the empty string (the state
`remove` leaves behind) passes the `is None` precondition check, so it
succeeds: the empty secret is overwritten with the newly parsed one and the
name is re-added to the index if missing — update resurrects a removed
service.
-/
theorem update_resurrects_removed_service
    (st : ProgState) (service input secret : String)
    (hstore : st.store service = some "")
    (hparse : parseSecret input = SecretInput.parsed secret) :
    (updateCmd st service input).1 = CmdResult.success ∧
    (updateCmd st service input).2.store service = some secret ∧
    service ∈ (updateCmd st service input).2.index := by
  unfold updateCmd
  rw [hparse, hstore]
  refine ⟨rfl, ?_, ?_⟩
  · simp [Store.set]
  · by_cases hm : service ∈ st.index
    · simp [hm]
    · simp [hm, add_service]

/-- Witness for C10: remove `github`, then update it with `NEWKEY`. -/
theorem update_resurrects_removed_service_witness :
    (removeCmd githubState "github").2.store "github" = some "" ∧
    parseSecret "NEWKEY" = SecretInput.parsed "NEWKEY" ∧
    ((updateCmd (removeCmd githubState "github").2 "github" "NEWKEY").1
        = CmdResult.success ∧
      (updateCmd (removeCmd githubState "github").2 "github" "NEWKEY").2.store "github"
        = some "NEWKEY" ∧
      "github" ∈ (updateCmd (removeCmd githubState "github").2 "github" "NEWKEY").2.index) :=
  ⟨by rfl, by decide,
    update_resurrects_removed_service (removeCmd githubState "github").2 "github"
      "NEWKEY" "NEWKEY" (by rfl) (by decide)⟩

/--
C7 counterexample: the claim says a missing *or empty* service name is
rejected with a user-input error for every non-`list` command.  The code's
only check is `args.service is None`: the empty-string service name `-s ""`
passes it, and `add` with it runs to completion — exit status 0 and both the
store and the index mutated.
-/
theorem empty_service_name_add_counterexample :
    (dispatch Action.add (some "") "SECRET" emptyState).1
        = DispatchResult.cmd CmdResult.success ∧
    DispatchResult.exitCode (dispatch Action.add (some "") "SECRET" emptyState).1 = 0 ∧
    (dispatch Action.add (some "") "SECRET" emptyState).2.store "" = some "SECRET" ∧
    (dispatch Action.add (some "") "SECRET" emptyState).2.index = [""] := by
  refine ⟨rfl, rfl, rfl, rfl⟩

/--
C7 (amended): for every command other than `list`, a *missing* service name
(`args.service is None`) is reported as a user-input error with exit status 1
and no state mutation; an empty-string service name, however, passes the check
and is processed as an ordinary name.
-/
theorem missing_service_name_rejected
    (act : Action) (hact : act ≠ Action.list) (input : String) (st : ProgState) :
    dispatch act none input st = (DispatchResult.errNoService, st) ∧
    DispatchResult.exitCode DispatchResult.errNoService = 1 := by
  cases act
  case list => exact absurd rfl hact
  all_goals exact ⟨rfl, rfl⟩

/-- Witness for the amended C7, at the `generate` command. -/
theorem missing_service_name_rejected_witness :
    Action.generate ≠ Action.list ∧
    (dispatch Action.generate none "" emptyState = (DispatchResult.errNoService, emptyState) ∧
      DispatchResult.exitCode DispatchResult.errNoService = 1) :=
  ⟨by decide, missing_service_name_rejected Action.generate (by decide) "" emptyState⟩

/-- The membership-guarded append used by the `add` and `update` branches
(`if args.service not in services: services.add_service(...)`) yields exactly
one occurrence of the name whenever the index held at most one before. -/
theorem ensure_index_count (idx : List String) (s : String)
    (h : idx.count s ≤ 1) :
    (if s ∈ idx then idx else add_service idx s).count s = 1 := by
  by_cases hm : s ∈ idx
  · rw [if_pos hm]
    have h1 : 0 < idx.count s := List.count_pos_iff.mpr hm
    omega
  · rw [if_neg hm]
    unfold add_service
    rw [List.count_append]
    have h0 : idx.count s = 0 := List.count_eq_zero.mpr hm
    simp [h0]

/--
C8: a successful `add` or `update` appends the service name to the index only
when it is not already listed, so if the index held no duplicate of the name
beforehand (at most one occurrence), it holds exactly one occurrence
afterwards — neither command ever introduces a duplicate.
-/
theorem add_update_no_duplicate_index
    (st : ProgState) (service input : String)
    (h : st.index.count service ≤ 1) :
    ((addCmd st service input).1 = CmdResult.success →
        (addCmd st service input).2.index.count service = 1) ∧
    ((updateCmd st service input).1 = CmdResult.success →
        (updateCmd st service input).2.index.count service = 1) := by
  constructor
  · intro hs
    unfold addCmd at hs ⊢
    cases hp : parseSecret input with
    | emptyInput => rw [hp] at hs; simp at hs
    | malformed => rw [hp] at hs; simp at hs
    | parsed secret =>
      rw [hp] at hs
      by_cases ht : pyTruthy (st.store service) = true
      · simp only [ht, if_true] at hs
        simp at hs
      · rw [Bool.not_eq_true] at ht
        simp only [ht, Bool.false_eq_true, if_false]
        exact ensure_index_count st.index service h
  · intro hs
    unfold updateCmd at hs ⊢
    cases hp : parseSecret input with
    | emptyInput => rw [hp] at hs; simp at hs
    | malformed => rw [hp] at hs; simp at hs
    | parsed secret =>
      rw [hp] at hs
      cases hk : st.store service with
      | none => rw [hk] at hs; simp at hs
      | some k =>
        exact ensure_index_count st.index service h

/-- Witness for C8: adding `github` to the empty state yields one index
entry. -/
theorem add_update_no_duplicate_index_witness :
    emptyState.index.count "github" ≤ 1 ∧
    (((addCmd emptyState "github" "NEWKEY").1 = CmdResult.success →
        (addCmd emptyState "github" "NEWKEY").2.index.count "github" = 1) ∧
      ((updateCmd emptyState "github" "NEWKEY").1 = CmdResult.success →
        (updateCmd emptyState "github" "NEWKEY").2.index.count "github" = 1)) :=
  ⟨by decide, add_update_no_duplicate_index emptyState "github" "NEWKEY" (by decide)⟩

/--
C9: after a successful `remove` of a service (store entry present, index
without duplicates), a subsequent `add` for the same service with a
well-formed, non-empty parsed secret succeeds: the empty-string entry left by
`remove` is falsy in Python, so it passes `add`'s `if key:` already-exists
check, the new secret is stored, and the name is re-appended to the index.
-/
theorem remove_then_add_succeeds
    (st : ProgState) (service input k secret : String)
    (hstore : st.store service = some k)
    (hcount : st.index.count service ≤ 1)
    (hparse : parseSecret input = SecretInput.parsed secret)
    (_hsecret : secret ≠ "") :
    (addCmd (removeCmd st service).2 service input).1 = CmdResult.success ∧
    (addCmd (removeCmd st service).2 service input).2.store service = some secret ∧
    (addCmd (removeCmd st service).2 service input).2.index
        = (removeCmd st service).2.index ++ [service] := by
  have hst1 : (removeCmd st service).2.store service = some "" := by
    unfold removeCmd
    rw [hstore]
    simp [Store.set]
  have hnotmem : service ∉ (removeCmd st service).2.index := by
    unfold removeCmd
    rw [hstore]
    by_cases hm : service ∈ st.index
    · simp only [hm, if_true]
      unfold remove_service
      intro hmem
      have hpos := List.count_pos_iff.mpr hmem
      have herase := List.count_erase_self service st.index
      omega
    · simp [hm]
  have ht : pyTruthy ((removeCmd st service).2.store service) = false := by
    rw [hst1]; decide
  unfold addCmd
  rw [hparse]
  simp only [ht, Bool.false_eq_true, if_false]
  refine ⟨?_, ?_, ?_⟩
  · trivial
  · simp [Store.set]
  · simp [hnotmem, add_service]

/-- Witness for C9: remove `github`, then add it back with `NEWKEY`. -/
theorem remove_then_add_succeeds_witness :
    githubState.store "github" = some "KEY" ∧
    githubState.index.count "github" ≤ 1 ∧
    parseSecret "NEWKEY" = SecretInput.parsed "NEWKEY" ∧
    ("NEWKEY" : String) ≠ "" ∧
    ((addCmd (removeCmd githubState "github").2 "github" "NEWKEY").1
        = CmdResult.success ∧
      (addCmd (removeCmd githubState "github").2 "github" "NEWKEY").2.store "github"
        = some "NEWKEY" ∧
      (addCmd (removeCmd githubState "github").2 "github" "NEWKEY").2.index
        = (removeCmd githubState "github").2.index ++ ["github"]) :=
  ⟨by rfl, by decide, by decide, by decide,
    remove_then_add_succeeds githubState "github" "NEWKEY" "KEY" "NEWKEY"
      (by rfl) (by decide) (by decide) (by decide)⟩

/--
C4 counterexample: the claim says the stored secret for an otpauth input is
exactly the substring between `secret=` and the next `&` (or the end of the
string).  On an input where `secret=` occurs twice before any `&`, Python's
`split("secret=")[1]` keeps only the chunk between the two occurrences: the
code stores `AB` where the claim's reading demands `ABsecret=CD`.
-/
theorem otpauth_double_secret_counterexample :
    parseSecret "otpauth://t?secret=ABsecret=CD" = SecretInput.parsed "AB" ∧
    specEffectiveSecret "otpauth://t?secret=ABsecret=CD" = "ABsecret=CD" ∧
    ("AB" : String) ≠ "ABsecret=CD" := by
  refine ⟨by decide, by decide, by decide⟩

/--
C4 (amended): for an interactive input that starts with `otpauth://` and
contains exactly one occurrence of `secret=` (the split on `secret=` has
exactly two chunks), the effective secret is exactly the substring between
`secret=` and the next `&`, or the end of the string if no `&` follows, all
other URI fields discarded; when `secret=` occurs more than once the code
additionally truncates at the next `secret=` occurrence.
-/
theorem otpauth_secret_extraction_single_occurrence
    (input : String) (a b : List Char)
    (hsw : startsWithChars "otpauth://".data input.data = true)
    (hsplit : pySplit "secret=".data input.data = [a, b]) :
    parseSecret input = SecretInput.parsed (specEffectiveSecret input) := by
  have hne : ¬ input = "" := by
    intro h
    subst h
    exact absurd hsw (by decide)
  have hafter : afterFirst "secret=".data input.data.length input.data = b :=
    afterFirst_of_pySplitGo_pair "secret=".data input.data.length input.data [] a b hsplit
  unfold parseSecret specEffectiveSecret
  rw [if_neg hne, if_pos hsw, hsplit, hafter]

/-- Witness for the amended C4, at the spec's own scenario URL. -/
theorem otpauth_secret_extraction_witness :
    startsWithChars "otpauth://".data
        "otpauth://totp/Example:alice?secret=JBSWY3DPEHPK3PXP&issuer=Example".data = true ∧
    pySplit "secret=".data
        "otpauth://totp/Example:alice?secret=JBSWY3DPEHPK3PXP&issuer=Example".data
      = ["otpauth://totp/Example:alice?".data, "JBSWY3DPEHPK3PXP&issuer=Example".data] ∧
    parseSecret "otpauth://totp/Example:alice?secret=JBSWY3DPEHPK3PXP&issuer=Example"
      = SecretInput.parsed
          (specEffectiveSecret
            "otpauth://totp/Example:alice?secret=JBSWY3DPEHPK3PXP&issuer=Example") :=
  ⟨by decide, by decide,
    otpauth_secret_extraction_single_occurrence
      "otpauth://totp/Example:alice?secret=JBSWY3DPEHPK3PXP&issuer=Example"
      "otpauth://totp/Example:alice?".data "JBSWY3DPEHPK3PXP&issuer=Example".data
      (by decide) (by decide)⟩

end Totp
